import Mathlib

/-!
Shallow embedding of src/Rust/Traits/src/main.rs: two traits with default
methods (Speak and Recall), two field-less structs (Dog and Cat), trait-bounded
free functions that each print one fixed line, and a generic wrapper Pet<T>
whose methods are available only when T implements the required trait.

Every function that prints is modelled as returning the single line it prints;
main's standard output is modelled as the list of lines it produces, in order.
A separate, purely static table records which impl blocks the source declares,
and a small ownership checker models the move of a binding into a Pet.
-/

/-- Trait Speak (main.rs:13-17); the default body of speak returns
"Animal sound.". -/
class Speak (α : Type) where
  speak : α → String := fun _ => "Animal sound."

/-- Trait Recall (main.rs:19-23); the default body of recall returns
"I'm coming back.". -/
class Recall (α : Type) where
  «recall» : α → String := fun _ => "I'm coming back."

/-- struct Dog {} (main.rs:25): no fields. -/
structure Dog

/-- struct Cat {} (main.rs:27): no fields. -/
structure Cat

/-- impl Speak for Dog (main.rs:29-33): overrides speak with "Bark". -/
instance : Speak Dog where
  speak _ := "Bark"

/-- impl Speak for Cat (main.rs:35-39): overrides speak with "Meow". -/
instance : Speak Cat where
  speak _ := "Meow"

/-- impl Recall for Dog (main.rs:41): an empty impl block, so Dog keeps the
trait's default recall body. -/
instance : Recall Dog := {}

/-- Model of std::any::type_name::<T>() from the Rust standard library (not in
src/): it returns a string naming the type T; the model uses the bare type
name. -/
class RustTypeName (α : Type) where
  typeName : String

instance : RustTypeName Dog := ⟨"Dog"⟩

instance : RustTypeName Cat := ⟨"Cat"⟩

/-- type_name::<T>() as used at main.rs:51, 59, 67 and 73. -/
def type_name (α : Type) [i : RustTypeName α] : String := i.typeName

/-- fn take_to_park (main.rs:46-48): prints one line; name_of!(animal) from the
nameof crate expands to the parameter's own name, the string "animal". The
returned string is the printed line. -/
def take_to_park {α : Type} [Recall α] (animal : α) : String :=
  "Taking a " ++ "animal" ++ " to the park."

/-- fn take_to_park_trait_bound_syntax (main.rs:50-52): prints one line naming
the type T via type_name. -/
def take_to_park_trait_bound_syntax {T : Type} [Recall T] [RustTypeName T] (animal : T) : String :=
  "Taking a " ++ type_name T ++ " to the park."

/-- fn take_to_play (main.rs:54-56): prints one line; name_of!(animal) is the
string "animal". -/
def take_to_play {α : Type} [Speak α] [Recall α] (animal : α) : String :=
  "Taking a " ++ "animal" ++ " to play."

/-- fn take_to_play_trait_bound_syntax (main.rs:58-60): prints one line naming
the type T via type_name. -/
def take_to_play_trait_bound_syntax {T : Type} [Speak T] [Recall T] [RustTypeName T] (animal : T) : String :=
  "Taking a " ++ type_name T ++ " to play."

/-- fn take_two_to_play_trait_bound_syntax (main.rs:66-68): two independently
typed parameters, each bounded by Speak + Recall; prints one line naming both
types. -/
def take_two_to_play_trait_bound_syntax {T U : Type} [Speak T] [Recall T] [RustTypeName T]
    [Speak U] [Recall U] [RustTypeName U] (animal_one : T) (animal_two : U) : String :=
  "Taking a " ++ type_name T ++ " and a " ++ type_name U ++ " to play."

/-- fn take_two_to_play_trait_bound_syntax_where (main.rs:71-74): same bounds
written with a where clause; prints one line naming both types. -/
def take_two_to_play_trait_bound_syntax_where {T U : Type} [Speak T] [Recall T] [RustTypeName T]
    [Speak U] [Recall U] [RustTypeName U] (animal_one : T) (animal_two : U) : String :=
  "Taking a " ++ type_name T ++ " and a " ++ type_name U ++ " to play."

/-- struct Pet<T> (main.rs:76-78): holds exactly one value of type T. -/
structure Pet (T : Type) where
  animal : T

/-- call_back from impl<T: Recall> Pet<T> (main.rs:80-84): forwards to the held
value's recall. -/
def Pet.call_back {T : Type} [Recall T] (self : Pet T) : String :=
  Recall.recall self.animal

/-- provoke from impl<T: Speak> Pet<T> (main.rs:87-91): forwards to the held
value's speak. -/
def Pet.provoke {T : Type} [Speak T] (self : Pet T) : String :=
  Speak.speak self.animal

/-- The two animal types, as names for the static impl table. -/
inductive AnimalTy
  | dog
  | cat
  deriving DecidableEq

/-- Which types have an impl of Speak: main.rs:29-39 declares one for Dog and
one for Cat. -/
def implementsSpeak : AnimalTy → Bool
  | .dog => true
  | .cat => true

/-- Which types have an impl of Recall: main.rs:41 declares one for Dog only;
the source contains no impl Recall for Cat. -/
def implementsRecall : AnimalTy → Bool
  | .dog => true
  | .cat => false

/-- call_back on Pet<T> is reachable exactly when T implements Recall, per the
conditional impl block at main.rs:80. -/
def petHasCallBack (t : AnimalTy) : Bool := implementsRecall t

/-- provoke on Pet<T> is reachable exactly when T implements Speak, per the
conditional impl block at main.rs:87. -/
def petHasProvoke (t : AnimalTy) : Bool := implementsSpeak t

/-- let dog = Dog {} (main.rs:94). -/
def theDog : Dog := {}

/-- let dog2 = Dog {} (main.rs:95). -/
def theDog2 : Dog := {}

/-- let cat = Cat {} (main.rs:96). -/
def theCat : Cat := {}

/-- let pet = Pet { animal: dog } (main.rs:113-115). -/
def thePet : Pet Dog := { animal := theDog }

/-- let pet2 = Pet { animal: cat } (main.rs:122-124). -/
def thePet2 : Pet Cat := { animal := theCat }

/-- The lines main (main.rs:93-128) prints to standard output, in order: three
direct println calls on speak/recall results (lines 98-100), then the one line
printed inside each free-function call (lines 104-111). The Pet method calls at
lines 119, 120 and 126 discard their results and print nothing. -/
def mainOutput : List String :=
  [ Speak.speak theDog
  , Recall.recall theDog
  , Speak.speak theCat
  , take_to_park theDog
  , take_to_park_trait_bound_syntax theDog
  , take_to_play theDog
  , take_to_play_trait_bound_syntax theDog
  , take_two_to_play_trait_bound_syntax_where theDog2 theDog ]

/-- The strings main computes and discards: pet.call_back() (line 119),
pet.provoke() (line 120) and pet2.provoke() (line 126) are statements whose
results are not printed. -/
def mainDiscarded : List String :=
  [ thePet.call_back, thePet.provoke, thePet2.provoke ]

/-- Modelled from the spec: the standard-output line sequence main would
produce if, as claimed, every invocation in main contributed its result as a
line, the Pet wrapper method calls included, in invocation order. -/
def specClaimedOutput : List String :=
  mainOutput ++ [ thePet.call_back, thePet.provoke, thePet2.provoke ]

/-- The bindings main introduces: dog, dog2, cat, pet, pet2. -/
inductive Binding
  | dog
  | dog2
  | cat
  | pet
  | pet2
  deriving DecidableEq

/-- Ownership-relevant statement forms occurring in main: a let introducing a
binding, a use of a binding through a shared reference, and a move of a binding
into a newly introduced wrapper binding. -/
inductive OwnStmt
  | intro : Binding → OwnStmt
  | use : Binding → OwnStmt
  | moveInto : Binding → Binding → OwnStmt

/-- One ownership-checking step over the list of live bindings: a let adds its
binding; a use requires its binding to be live and leaves the list unchanged (a
shared borrow is not a consumption); a move requires the source to be live,
removes it, and adds the destination (a transfer, not a copy). -/
def ownStep (live : List Binding) : OwnStmt → Option (List Binding)
  | .intro b => some (b :: live)
  | .use b => if b ∈ live then some live else none
  | .moveInto src dst => if src ∈ live then some (dst :: live.erase src) else none

/-- Run the ownership checker over a statement list; none means some statement
used a binding that was not live (for instance, after its value was moved). -/
def checkStmts (live : List Binding) : List OwnStmt → Option (List Binding)
  | [] => some live
  | s :: rest =>
    match ownStep live s with
    | none => none
    | some live2 => checkStmts live2 rest

/-- main (main.rs:93-128) as its sequence of ownership-relevant statements:
the three lets (lines 94-96); the borrows in the println calls (lines 98-100);
the borrows passed to the five free-function calls (lines 104-111, where line
111 borrows dog2 then dog); the move of dog into pet (lines 113-115); the two
method calls borrowing pet (lines 119-120); the move of cat into pet2 (lines
122-124); and the method call borrowing pet2 (line 126). -/
def mainStmts : List OwnStmt :=
  [ .intro .dog, .intro .dog2, .intro .cat
  , .use .dog, .use .dog, .use .cat
  , .use .dog, .use .dog
  , .use .dog, .use .dog
  , .use .dog2, .use .dog
  , .moveInto .dog .pet
  , .use .pet, .use .pet
  , .moveInto .cat .pet2
  , .use .pet2 ]

/-- mainStmts up to and including the move of dog into pet, followed by the
use of dog that main.rs:117 keeps commented out because it would not compile. -/
def stmtsUseAfterMove : List OwnStmt :=
  mainStmts.take 13 ++ [ .use .dog ]

/-- Claim C1: for Dog, speak returns "Bark" and recall returns the Recall
trait's default string "I'm coming back."; the registered Dog instance of
Recall coincides with an instance built purely from the trait's default body,
mirroring the empty impl Recall for Dog. -/
theorem dog_speak_bark_recall_default :
    Speak.speak theDog = "Bark" ∧
    Recall.recall theDog = "I'm coming back." ∧
    @Recall.recall Dog {} theDog = Recall.recall theDog :=
  ⟨rfl, rfl, rfl⟩

/-- Claim C2: Pet is a pass-through wrapper, each method under exactly its own
trait gate: for every type T adopting Recall and every value a, Pet { animal :=
a } satisfies call_back = recall a; for every T adopting Speak (Recall or not),
it satisfies provoke = speak a; and a Pet holding a Dog reaches both wrapper
methods. -/
theorem pet_methods_forward :
    (∀ (T : Type) [Recall T] (a : T), (Pet.mk a).call_back = Recall.recall a) ∧
    (∀ (T : Type) [Speak T] (a : T), (Pet.mk a).provoke = Speak.speak a) ∧
    petHasCallBack AnimalTy.dog = true ∧
    petHasProvoke AnimalTy.dog = true :=
  ⟨fun T _ a => rfl, fun T _ a => rfl, rfl, rfl⟩

/-- Claim C2 witness: the forwarding equations instantiated at a Pet holding a
Dog (both methods) and at a Pet holding a Cat, which adopts Speak only, as in
the pet2.provoke() call of main. -/
theorem pet_methods_forward_witness :
    (Pet.mk theDog).call_back = Recall.recall theDog ∧
    (Pet.mk theDog).provoke = Speak.speak theDog ∧
    (Pet.mk theCat).provoke = Speak.speak theCat ∧
    petHasCallBack AnimalTy.dog = true ∧
    petHasProvoke AnimalTy.dog = true :=
  ⟨pet_methods_forward.1 Dog theDog, pet_methods_forward.2.1 Dog theDog,
   pet_methods_forward.2.1 Cat theCat, pet_methods_forward.2.2.1,
   pet_methods_forward.2.2.2⟩

/-- Claim C3: Cat's speak returns "Meow"; Cat implements Speak but not Recall,
so a recall invocation on Cat is statically unreachable, and a Pet holding a
Cat reaches provoke but not call_back. -/
theorem cat_speak_only :
    Speak.speak theCat = "Meow" ∧
    implementsSpeak AnimalTy.cat = true ∧
    implementsRecall AnimalTy.cat = false ∧
    petHasProvoke AnimalTy.cat = true ∧
    petHasCallBack AnimalTy.cat = false := by
  decide

/-- Claim C4 counterexample: main prints eight lines, while the claim requires
every invocation, the three Pet wrapper method calls included, to contribute
its result, which would give eleven; the Pet method call results are discarded,
so the real output differs from the claimed one. -/
theorem main_output_not_all_invocations :
    mainOutput.length = 8 ∧
    specClaimedOutput.length = 11 ∧
    mainOutput ≠ specClaimedOutput := by
  decide

/-- Claim C4 (amended): main prints, in order, the results of its three direct
speak/recall invocations and the one line printed inside each of the five
free-function calls; the Pet wrapper method calls compute "I'm coming back.",
"Bark" and "Meow" but discard them, contributing nothing to standard output. -/
theorem main_output_exact :
    mainOutput =
      [ "Bark", "I'm coming back.", "Meow"
      , "Taking a animal to the park.", "Taking a Dog to the park."
      , "Taking a animal to play.", "Taking a Dog to play."
      , "Taking a Dog and a Dog to play." ] ∧
    mainDiscarded = [ "I'm coming back.", "Bark", "Meow" ] :=
  ⟨rfl, rfl⟩

/-- Claim C5: each of the four one-parameter free functions prints exactly one
fixed-format line naming its argument: take_to_park and take_to_play name it
conceptually, by the parameter name "animal" produced by name_of!, while the
two trait-bound-syntax variants name the concrete type via type_name. -/
theorem free_functions_one_line (T : Type) [Speak T] [Recall T] [RustTypeName T] (a : T) :
    take_to_park a = "Taking a " ++ "animal" ++ " to the park." ∧
    take_to_park_trait_bound_syntax a = "Taking a " ++ type_name T ++ " to the park." ∧
    take_to_play a = "Taking a " ++ "animal" ++ " to play." ∧
    take_to_play_trait_bound_syntax a = "Taking a " ++ type_name T ++ " to play." :=
  ⟨rfl, rfl, rfl, rfl⟩

/-- Claim C5 witness: the four lines at a Dog argument. -/
theorem free_functions_one_line_witness :
    take_to_park theDog = "Taking a " ++ "animal" ++ " to the park." ∧
    take_to_park_trait_bound_syntax theDog = "Taking a " ++ type_name Dog ++ " to the park." ∧
    take_to_play theDog = "Taking a " ++ "animal" ++ " to play." ∧
    take_to_play_trait_bound_syntax theDog = "Taking a " ++ type_name Dog ++ " to play." :=
  free_functions_one_line Dog theDog

/-- Claim C6: both two-parameter functions accept two independently chosen
types T and U, each under the combined Speak + Recall bound, and print one line
naming both; main invokes the where-clause variant with the two distinct Dog
values dog2 and dog, producing the eighth output line. -/
theorem two_params_two_types (T U : Type) [Speak T] [Recall T] [RustTypeName T]
    [Speak U] [Recall U] [RustTypeName U] (a : T) (b : U) :
    take_two_to_play_trait_bound_syntax a b =
      "Taking a " ++ type_name T ++ " and a " ++ type_name U ++ " to play." ∧
    take_two_to_play_trait_bound_syntax_where a b =
      "Taking a " ++ type_name T ++ " and a " ++ type_name U ++ " to play." ∧
    mainOutput[7]? = some ( take_two_to_play_trait_bound_syntax_where theDog2 theDog) :=
  ⟨rfl, rfl, rfl⟩

/-- Claim C6 witness: the two-parameter functions applied to the pair of Dog
values main passes. -/
theorem two_params_two_types_witness :
    take_two_to_play_trait_bound_syntax theDog2 theDog =
      "Taking a " ++ type_name Dog ++ " and a " ++ type_name Dog ++ " to play." ∧
    take_two_to_play_trait_bound_syntax_where theDog2 theDog =
      "Taking a " ++ type_name Dog ++ " and a " ++ type_name Dog ++ " to play." ∧
    mainOutput[7]? = some ( take_two_to_play_trait_bound_syntax_where theDog2 theDog) :=
  two_params_two_types Dog Dog theDog2 theDog

/-- Claim C7: the explicit trait-bound two-parameter function and its
where-clause twin print exactly the same line on every pair of admissible
arguments. -/
theorem two_play_variants_agree (T U : Type) [Speak T] [Recall T] [RustTypeName T]
    [Speak U] [Recall U] [RustTypeName U] (a : T) (b : U) :
    take_two_to_play_trait_bound_syntax a b =
      take_two_to_play_trait_bound_syntax_where a b :=
  rfl

/-- Claim C7 witness: agreement of the two variants at the pair of Dog values
main passes. -/
theorem two_play_variants_agree_witness :
    take_two_to_play_trait_bound_syntax theDog2 theDog =
      take_two_to_play_trait_bound_syntax_where theDog2 theDog :=
  two_play_variants_agree Dog Dog theDog2 theDog

/-- Claim C8: the ownership checker accepts main as written; right after the
move of dog into pet the live bindings are pet, cat and dog2 — dog is gone and
the value has exactly one owner, so the move is a transfer, not a copy — and
appending the use of dog that main.rs:117 keeps commented out makes the checker
reject the program. -/
theorem move_makes_binding_unusable :
    (checkStmts [] mainStmts).isSome = true ∧
    checkStmts [] (mainStmts.take 13) = some [Binding.pet, Binding.cat, Binding.dog2] ∧
    checkStmts [] stmtsUseAfterMove = none := by
  decide

/-- Claim C9: every operation is read-only over stateless values: Dog and Cat
carry no state (any two values are equal), each operation's result depends only
on its receiver's value, a Pet merely holds its animal unchanged, call_back and
provoke agree on any two Pet Dog values, and invoking the same operation any
number of times on the same value yields the same string every time. -/
theorem operations_read_only :
    (∀ a b : Dog, a = b) ∧
    (∀ a b : Cat, a = b) ∧
    (∀ a b : Dog, Speak.speak a = Speak.speak b ∧ Recall.recall a = Recall.recall b) ∧
    (∀ a b : Cat, Speak.speak a = Speak.speak b) ∧
    (∀ (T : Type) (a : T), (Pet.mk a).animal = a) ∧
    (∀ p q : Pet Dog, p.call_back = q.call_back ∧ p.provoke = q.provoke) ∧
    (∀ (T : Type) [Speak T] (a : T) (n : Nat),
      (List.replicate n a).map Speak.speak = List.replicate n (Speak.speak a)) := by
  refine ⟨fun a b => by cases a; cases b; rfl,
          fun a b => by cases a; cases b; rfl,
          fun a b => ⟨rfl, rfl⟩,
          fun a b => rfl,
          fun T a => rfl,
          fun p q => ⟨rfl, rfl⟩,
          fun T _ a n => by simp⟩

/-- Claim C10: the Speak trait's default body returns "Animal sound."; both
adopters override speak (Dog to "Bark", Cat to "Meow"), so no invocation in the
program, printed or discarded, ever produces the default string. -/
theorem speak_default_never_executed :
    @Speak.speak Dog {} theDog = "Animal sound." ∧
    @Speak.speak Cat {} theCat = "Animal sound." ∧
    Speak.speak theDog ≠ "Animal sound." ∧
    Speak.speak theCat ≠ "Animal sound." ∧
    "Animal sound." ∉ mainOutput ∧
    "Animal sound." ∉ mainDiscarded := by
  decide
